import Mathlib

/-!
Shallow embedding of the QR-code generator application (src/src/App.tsx and
the QRCodeOptions types in src/unnamed/part_000), together with proofs of
the specification's claims about its state-update functions, export actions
and render branch.
-/

namespace QRApp

/-- Error-correction levels of a QR symbol, from the type
`ErrorCorrectionLevel = 'L' | 'M' | 'Q' | 'H'` (src/unnamed/part_000). -/
inductive ErrorCorrectionLevel
  | L
  | M
  | Q
  | H
deriving DecidableEq

/-- Optional embedded-image settings of `QRCodeOptions.imageSettings`
(src/unnamed/part_000, lines 8-13). -/
structure ImageSettings where
  src : String
  height : Nat
  width : Nat
  excavate : Bool
deriving DecidableEq

/-- The `QRCodeOptions` interface (src/unnamed/part_000, lines 1-14).
The TypeScript field `imageSettings?` is optional, hence `Option` with
default `none` (an absent key). -/
structure QRCodeOptions where
  size : Nat
  level : ErrorCorrectionLevel
  bgColor : String
  fgColor : String
  includeMargin : Bool
  marginSize : Nat
  imageSettings : Option ImageSettings := none
deriving DecidableEq

/-- The `PresetStyle` interface (src/unnamed/part_000, lines 16-22). -/
structure PresetStyle where
  name : String
  bgColor : String
  fgColor : String
  icon : String
  color : String
deriving DecidableEq

/-- The fixed preset catalog `presetStyles` (App.tsx, lines 8-15). -/
def presetStyles : List PresetStyle :=
  [ { name := "Classic", bgColor := "#FFFFFF", fgColor := "#000000", icon := "⚫", color := "white" },
    { name := "Ocean", bgColor := "#E0F2FE", fgColor := "#0C4A6E", icon := "🌊", color := "white" },
    { name := "Forest", bgColor := "#D1FAE5", fgColor := "#064E3B", icon := "🌲", color := "white" },
    { name := "Sunset", bgColor := "#FEE2E2", fgColor := "#7F1D1D", icon := "🌅", color := "white" },
    { name := "Night", bgColor := "#1E293B", fgColor := "#E2E8F0", icon := "🌙", color := "black" },
    { name := "Purple", bgColor := "#EDE9FE", fgColor := "#4C1D95", icon := "💜", color := "white" } ]

/-- The initial value of the `options` state (App.tsx, lines 23-30).
No `imageSettings` key is given, so it is absent (`none`). -/
def initialOptions : QRCodeOptions :=
  { size := 300
    level := ErrorCorrectionLevel.M
    bgColor := "#FFFFFF"
    fgColor := "#000000"
    includeMargin := true
    marginSize := 4 }

/-- The keys of `QRCodeOptions` (`keyof QRCodeOptions` in the generic
signature of `updateOption`, App.tsx lines 38-41). -/
inductive OptionKey
  | size
  | level
  | bgColor
  | fgColor
  | includeMargin
  | marginSize
  | imageSettings
deriving DecidableEq

/-- The type of the value stored at each key, `QRCodeOptions[K]` in the
TypeScript signature of `updateOption`. -/
def OptionKey.ValueType : OptionKey → Type
  | OptionKey.size => Nat
  | OptionKey.level => ErrorCorrectionLevel
  | OptionKey.bgColor => String
  | OptionKey.fgColor => String
  | OptionKey.includeMargin => Bool
  | OptionKey.marginSize => Nat
  | OptionKey.imageSettings => Option ImageSettings

/-- Field projection of `QRCodeOptions` at a key, used to state the
shallow-merge contract of `updateOption`. -/
def QRCodeOptions.get (o : QRCodeOptions) : (k : OptionKey) → k.ValueType
  | OptionKey.size => o.size
  | OptionKey.level => o.level
  | OptionKey.bgColor => o.bgColor
  | OptionKey.fgColor => o.fgColor
  | OptionKey.includeMargin => o.includeMargin
  | OptionKey.marginSize => o.marginSize
  | OptionKey.imageSettings => o.imageSettings

/-- `updateOption(key, value)` (App.tsx, lines 38-43):
`setOptions(prev => ({ ...prev, [key]: value }))`, a shallow merge that
rebinds the one computed key. -/
def updateOption (k : OptionKey) (v : k.ValueType) (prev : QRCodeOptions) : QRCodeOptions :=
  match k, v with
  | OptionKey.size, v => { prev with size := v }
  | OptionKey.level, v => { prev with level := v }
  | OptionKey.bgColor, v => { prev with bgColor := v }
  | OptionKey.fgColor, v => { prev with fgColor := v }
  | OptionKey.includeMargin, v => { prev with includeMargin := v }
  | OptionKey.marginSize, v => { prev with marginSize := v }
  | OptionKey.imageSettings, v => { prev with imageSettings := v }

/-- The component state of `App` that the claims concern: the `text` state
(line 18), the `copied` flag (line 19) and the `options` state (lines 23-30). -/
structure AppState where
  text : String
  copied : Bool
  options : QRCodeOptions
deriving DecidableEq

/-- A toast notification: `toast.success(msg)` or `toast.error(msg)`
(react-hot-toast calls in App.tsx). -/
inductive Notification
  | success (msg : String)
  | error (msg : String)
deriving DecidableEq

/-- `applyPreset(preset)` (App.tsx, lines 46-53): spreads the previous
options and overwrites `bgColor` and `fgColor` with the preset's values. -/
def applyPresetOptions (preset : PresetStyle) (prev : QRCodeOptions) : QRCodeOptions :=
  { prev with bgColor := preset.bgColor, fgColor := preset.fgColor }

/-- The `applyPreset` handler at the level of the whole component state:
it calls `setOptions` with `applyPresetOptions` and emits a success toast
naming the preset (App.tsx, lines 46-53). `text` and `copied` are not
touched. -/
def applyPreset (preset : PresetStyle) (s : AppState) : AppState × Notification :=
  ({ s with options := applyPresetOptions preset s.options },
   Notification.success ("Applied " ++ preset.name ++ " style!"))

/-- `resetOptions()` (App.tsx, lines 97-108): replaces `options` with a
fresh literal (lines 98-105, no `imageSettings` key, hence absent) and sets
`text` to the empty string. -/
def resetOptions (s : AppState) : AppState × Notification :=
  ({ s with
      options :=
        { size := 300
          level := ErrorCorrectionLevel.M
          bgColor := "#FFFFFF"
          fgColor := "#000000"
          includeMargin := true
          marginSize := 4 }
      text := "" },
   Notification.success "Reset to defaults")

/-- The drawable surface exists exactly when the render branch mounts the
`QRCodeCanvas` inside `qrRef`: the JSX `{text ? ... : ...}` (App.tsx,
line 299) takes the canvas branch for every non-empty (truthy) `text`, so
`qrRef.current?.querySelector('canvas')` finds a canvas iff `text` is
non-empty. -/
def hasSurface (s : AppState) : Bool :=
  !s.text.isEmpty

/-- `downloadQRCode()` (App.tsx, lines 56-69): if no canvas is found it
emits an error toast and returns; otherwise it serializes the canvas and
emits a success toast. It never calls `setOptions`, `setText` or
`setCopied`, so the state is returned unchanged in both branches. -/
def downloadQRCode (s : AppState) : AppState × Notification :=
  if hasSurface s then
    (s, Notification.success "QR Code downloaded!")
  else
    (s, Notification.error "No QR code to download")

/-- Outcome of the runtime clipboard capability for one write attempt:
`ok` when `navigator.clipboard.write` resolves, `rejected` when the
capability is unavailable or the write rejects (the `catch` path of
App.tsx lines 90-93). -/
inductive ClipboardOutcome
  | ok
  | rejected
deriving DecidableEq

/-- `copyToClipboard()` (App.tsx, lines 72-94): if no canvas is found it
emits an error toast and returns with the state unchanged; otherwise it
writes the PNG blob to the clipboard. On resolution it sets `copied` to
true and emits a success toast; if the write rejects (or the capability is
absent) the `catch` branch emits the unsupported-browser error toast and
the state is unchanged. -/
def copyToClipboard (clip : ClipboardOutcome) (s : AppState) : AppState × Notification :=
  if hasSurface s then
    match clip with
    | ClipboardOutcome.ok =>
        ({ s with copied := true }, Notification.success "Copied to clipboard!")
    | ClipboardOutcome.rejected =>
        (s, Notification.error "Copy not supported in this browser")
  else
    (s, Notification.error "No QR code to copy")

/-- The props the render branch passes to the external `QRCodeCanvas`
rendering capability (App.tsx, lines 306-313): `value`, `size`, `level`,
`bgColor`, `fgColor`, `includeMargin` — and nothing else; in particular
`marginSize` is not passed. -/
structure RenderInputs where
  value : String
  size : Nat
  level : ErrorCorrectionLevel
  bgColor : String
  fgColor : String
  includeMargin : Bool
deriving DecidableEq

/-- The inputs handed to the rendering capability for a given state
(App.tsx, lines 306-313). -/
def renderInputs (s : AppState) : RenderInputs :=
  { value := s.text
    size := s.options.size
    level := s.options.level
    bgColor := s.options.bgColor
    fgColor := s.options.fgColor
    includeMargin := s.options.includeMargin }

/-- What the preview pane shows: the `QRCodeCanvas` with its props, or the
placeholder/empty state. These are the only two branches of the JSX
conditional (App.tsx, lines 299-349); the component has no error branch. -/
inductive View
  | canvas (inputs : RenderInputs)
  | placeholder
deriving DecidableEq

/-- The render branch `{text ? <QRCodeCanvas .../> : <placeholder/>}`
(App.tsx, line 299): truthy (non-empty) text mounts the canvas, empty text
shows the placeholder. -/
def renderView (s : AppState) : View :=
  if s.text.isEmpty then View.placeholder else View.canvas (renderInputs s)

/-- The toast notifications emitted by the render path of `App` (the JSX
returned at App.tsx lines 110-369): none. The render branch contains no
`toast` call and no try/catch around `QRCodeCanvas`; every toast in the
file lives in the four event handlers. -/
def renderNotifications (_s : AppState) : List Notification :=
  []

/-- A concrete state whose text (3000 bytes) exceeds the QR capacity of
every version at error-correction level H (max 1273 bytes in byte mode),
so the external rendering capability cannot encode it. -/
def overCapacityState : AppState :=
  { text := String.mk (List.replicate 3000 'a')
    copied := false
    options := { initialOptions with level := ErrorCorrectionLevel.H } }

/-- The fixed delay (milliseconds) passed to `setTimeout` when reverting the
copied indicator (App.tsx, line 89). -/
def copyRevertDelay : Nat := 2000

/-- The copied indicator together with its pending revert timer: `copied`
is the `copied` state (App.tsx, line 19) and `pending` is the deadline of
the one `setTimeout(() => setCopied(false), 2000)` callback when scheduled. -/
structure CopiedTimer where
  copied : Bool
  pending : Option Nat
deriving DecidableEq

/-- The initial copied indicator: `useState<boolean>(false)` and no timer. -/
def CopiedTimer.init : CopiedTimer :=
  { copied := false, pending := none }

/-- The success continuation of `copyToClipboard` at the moment `now` the
clipboard write resolves (App.tsx, lines 87-89): `setCopied(true)` then
`setTimeout(() => setCopied(false), 2000)`, scheduling the revert at
`now + 2000`. -/
def onCopyResolved (now : Nat) (_st : CopiedTimer) : CopiedTimer :=
  { copied := true, pending := some (now + copyRevertDelay) }

/-- Advancing the event loop to time `t`: a scheduled timer whose deadline
has been reached fires its callback `setCopied(false)`. -/
def fireDue (t : Nat) (st : CopiedTimer) : CopiedTimer :=
  match st.pending with
  | some d => if d ≤ t then { copied := false, pending := none } else st
  | none => st

/-- The observed copied indicator at time `t` in one successful run of
`copyToClipboard` whose clipboard write resolves at time `r`, starting
from the initial indicator state. -/
def copiedAt (r t : Nat) : Bool :=
  if t < r then CopiedTimer.init.copied
  else (fireDue t (onCopyResolved r CopiedTimer.init)).copied

/-- Helper: the drawable surface exists exactly when the text is non-empty. -/
theorem hasSurface_eq (s : AppState) : hasSurface s = !s.text.isEmpty :=
  rfl

/-- Helper: `String.isEmpty` agrees with equality to the empty string. -/
theorem string_isEmpty_eq_decide (str : String) : str.isEmpty = decide (str = "") := by
  rcases str with ⟨l⟩
  cases l with
  | nil => rfl
  | cons c cs =>
      have h1 : String.isEmpty ⟨c :: cs⟩ = false := by
        simp [String.isEmpty, String.endPos, String.utf8ByteSize, String.utf8ByteSize.go,
          BEq.beq, String.Pos.ext_iff]
        have := Char.utf8Size_pos c
        omega
      have h2 : (String.mk (c :: cs) = String.mk []) ↔ False := by
        simp [String.ext_iff]
      simp [h1, h2]

/-- C1: for every preset and every state, `applyPreset` sets `bgColor` and
`fgColor` to the preset's colors and leaves `size`, `level`,
`includeMargin`, `marginSize`, `imageSettings` and the text unchanged. -/
theorem applyPreset_exact_frame (p : PresetStyle) (s : AppState) :
    (applyPreset p s).1.options.bgColor = p.bgColor ∧
    (applyPreset p s).1.options.fgColor = p.fgColor ∧
    (applyPreset p s).1.options.size = s.options.size ∧
    (applyPreset p s).1.options.level = s.options.level ∧
    (applyPreset p s).1.options.includeMargin = s.options.includeMargin ∧
    (applyPreset p s).1.options.marginSize = s.options.marginSize ∧
    (applyPreset p s).1.options.imageSettings = s.options.imageSettings ∧
    (applyPreset p s).1.text = s.text :=
  ⟨rfl, rfl, rfl, rfl, rfl, rfl, rfl, rfl⟩

/-- C2: for every prior state, `resetOptions` yields exactly the initial
configuration value (size 300, level M, white background, black foreground,
margin included, margin size 4) and clears the text. -/
theorem resetOptions_restores_defaults (s : AppState) :
    (resetOptions s).1.options = initialOptions ∧
    (resetOptions s).1.text = "" ∧
    initialOptions =
      { size := 300
        level := ErrorCorrectionLevel.M
        bgColor := "#FFFFFF"
        fgColor := "#000000"
        includeMargin := true
        marginSize := 4
        imageSettings := none } :=
  ⟨rfl, rfl, rfl⟩

/-- C3: `updateOption k v` is a shallow merge of one binding: the field at
`k` becomes `v` and every other field keeps its previous value. -/
theorem updateOption_shallow_merge (o : QRCodeOptions) (k : OptionKey) (v : k.ValueType) :
    (updateOption k v o).get k = v ∧
    ∀ k' : OptionKey, k' ≠ k → HEq ((updateOption k v o).get k') (o.get k') := by
  refine ⟨?_, ?_⟩
  · cases k <;> rfl
  · intro k' h
    cases k <;> cases k' <;> first | exact absurd rfl h | exact HEq.rfl

/-- Witness for C3 at a concrete key, value and configuration. -/
theorem updateOption_shallow_merge_witness :
    (updateOption OptionKey.size (400 : Nat) initialOptions).get OptionKey.size = (400 : Nat) ∧
    HEq ((updateOption OptionKey.size (400 : Nat) initialOptions).get OptionKey.bgColor)
      (initialOptions.get OptionKey.bgColor) :=
  ⟨(updateOption_shallow_merge initialOptions OptionKey.size (400 : Nat)).1,
   (updateOption_shallow_merge initialOptions OptionKey.size (400 : Nat)).2
     OptionKey.bgColor (by decide)⟩

/-- C4: with empty text (no drawable surface) both export actions report
their missing-surface error via a notification and leave the state intact;
and on every state whatsoever, neither action changes the options or the
text. -/
theorem export_actions_missing_surface (s s' : AppState) (clip : ClipboardOutcome)
    (h : s.text = "") :
    (downloadQRCode s).2 = Notification.error "No QR code to download" ∧
    (copyToClipboard clip s).2 = Notification.error "No QR code to copy" ∧
    (downloadQRCode s).1 = s ∧
    (copyToClipboard clip s).1 = s ∧
    (downloadQRCode s').1.options = s'.options ∧
    (downloadQRCode s').1.text = s'.text ∧
    (copyToClipboard clip s').1.options = s'.options ∧
    (copyToClipboard clip s').1.text = s'.text := by
  have hs : hasSurface s = false := by
    rw [hasSurface_eq, h]
    decide
  have hdl : ∀ t : AppState, (downloadQRCode t).1 = t := by
    intro t
    unfold downloadQRCode
    split <;> rfl
  have hcp : ∀ t : AppState,
      (copyToClipboard clip t).1.options = t.options ∧
      (copyToClipboard clip t).1.text = t.text := by
    intro t
    cases clip <;> unfold copyToClipboard <;> split <;> exact ⟨rfl, rfl⟩
  refine ⟨?_, ?_, hdl s, ?_, by rw [hdl s'], by rw [hdl s'], (hcp s').1, (hcp s').2⟩
  · simp [downloadQRCode, hs]
  · cases clip <;> simp [copyToClipboard, hs]
  · cases clip <;> simp [copyToClipboard, hs]

/-- Witness for C4 at concrete states (empty and non-empty text) and a
resolving clipboard. -/
theorem export_actions_missing_surface_witness :
    (downloadQRCode { text := "", copied := false, options := initialOptions }).2 =
      Notification.error "No QR code to download" ∧
    (copyToClipboard ClipboardOutcome.ok
        { text := "", copied := false, options := initialOptions }).2 =
      Notification.error "No QR code to copy" ∧
    (downloadQRCode { text := "", copied := false, options := initialOptions }).1 =
      { text := "", copied := false, options := initialOptions } ∧
    (copyToClipboard ClipboardOutcome.ok
        { text := "", copied := false, options := initialOptions }).1 =
      { text := "", copied := false, options := initialOptions } ∧
    (downloadQRCode { text := "hi", copied := false, options := initialOptions }).1.options =
      initialOptions ∧
    (downloadQRCode { text := "hi", copied := false, options := initialOptions }).1.text =
      "hi" ∧
    (copyToClipboard ClipboardOutcome.ok
        { text := "hi", copied := false, options := initialOptions }).1.options =
      initialOptions ∧
    (copyToClipboard ClipboardOutcome.ok
        { text := "hi", copied := false, options := initialOptions }).1.text =
      "hi" :=
  export_actions_missing_surface
    { text := "", copied := false, options := initialOptions }
    { text := "hi", copied := false, options := initialOptions }
    ClipboardOutcome.ok rfl

/-- C5: in a successful copy run whose clipboard write resolves at time
`r`, the copied indicator is true exactly on the window from `r` up to but
excluding `r + 2000`: false at all times before the resolution, true
immediately at it, and false again once the fixed 2-second delay elapses. -/
theorem copied_indicator_timeline (r t : Nat) :
    copiedAt r t = (decide (r ≤ t) && decide (t < r + copyRevertDelay)) := by
  unfold copiedAt fireDue onCopyResolved CopiedTimer.init
  by_cases h1 : t < r
  · have ha : ¬ r ≤ t := by omega
    simp [h1, ha]
  · by_cases h2 : r + copyRevertDelay ≤ t
    · have ha : ¬ t < r + copyRevertDelay := by omega
      simp [h1, h2, ha]
    · have ha : r ≤ t := by omega
      have hb : t < r + copyRevertDelay := by omega
      simp [h1, h2, ha, hb]

/-- C6: when a surface exists but the clipboard capability rejects the
write, `copyToClipboard` emits the unsupported-browser error notification
and the copied indicator is not set (the whole state is unchanged). -/
theorem copy_unsupported_clipboard (s : AppState) (h : s.text ≠ "") :
    (copyToClipboard ClipboardOutcome.rejected s).2 =
      Notification.error "Copy not supported in this browser" ∧
    (copyToClipboard ClipboardOutcome.rejected s).1.copied = s.copied ∧
    (copyToClipboard ClipboardOutcome.rejected s).1 = s := by
  have hs : hasSurface s = true := by
    simp [hasSurface, string_isEmpty_eq_decide, h]
  refine ⟨?_, ?_, ?_⟩ <;> simp [copyToClipboard, hs]

/-- Witness for C6 at a concrete state with non-empty text. -/
theorem copy_unsupported_clipboard_witness :
    (copyToClipboard ClipboardOutcome.rejected
        { text := "hi", copied := false, options := initialOptions }).2 =
      Notification.error "Copy not supported in this browser" ∧
    (copyToClipboard ClipboardOutcome.rejected
        { text := "hi", copied := false, options := initialOptions }).1.copied = false ∧
    (copyToClipboard ClipboardOutcome.rejected
        { text := "hi", copied := false, options := initialOptions }).1 =
      { text := "hi", copied := false, options := initialOptions } :=
  copy_unsupported_clipboard
    { text := "hi", copied := false, options := initialOptions } (by decide)

/-- C7 (code bug): on the over-capacity input the app still takes the
canvas branch, handing the un-encodable text directly to the rendering
capability, and the render path emits no notification at any state — the
code has no EncodingFailure error state at all. -/
theorem render_surfaces_no_encoding_failure :
    renderView overCapacityState = View.canvas (renderInputs overCapacityState) ∧
    ∀ s : AppState, renderNotifications s = [] := by
  refine ⟨?_, fun _ => rfl⟩
  have hlen : overCapacityState.text.length = 3000 := by
    show (List.replicate 3000 'a').length = 3000
    exact List.length_replicate 3000 'a'
  have hne : overCapacityState.text ≠ "" := by
    intro hcontra
    rw [hcontra] at hlen
    simp at hlen
  have h : overCapacityState.text.isEmpty = false := by
    rw [string_isEmpty_eq_decide]
    simp [hne]
  simp [renderView, h]

/-- C8: a drawable surface exists if and only if the text is non-empty,
and the preview shows the placeholder exactly when the text is empty. -/
theorem surface_iff_text_nonempty (s : AppState) :
    hasSurface s = !decide (s.text = "") ∧
    renderView s =
      (if s.text = "" then View.placeholder else View.canvas (renderInputs s)) := by
  constructor
  · rw [hasSurface_eq, string_isEmpty_eq_decide]
  · rw [renderView, string_isEmpty_eq_decide]
    by_cases h : s.text = "" <;> simp [h]

/-- C9: `applyPreset` is idempotent — applying the same preset twice in
succession yields the same state as applying it once. -/
theorem applyPreset_idempotent (p : PresetStyle) (s : AppState) :
    (applyPreset p (applyPreset p s).1).1 = (applyPreset p s).1 :=
  rfl

/-- C10: the inputs passed to the rendering capability do not depend on
`marginSize`: two states agreeing on the text and on every option except
`marginSize` produce identical render inputs and an identical view. -/
theorem render_independent_of_marginSize (s s' : AppState)
    (ht : s.text = s'.text)
    (h1 : s.options.size = s'.options.size)
    (h2 : s.options.level = s'.options.level)
    (h3 : s.options.bgColor = s'.options.bgColor)
    (h4 : s.options.fgColor = s'.options.fgColor)
    (h5 : s.options.includeMargin = s'.options.includeMargin) :
    renderInputs s = renderInputs s' ∧ renderView s = renderView s' := by
  have hri : renderInputs s = renderInputs s' := by
    simp [renderInputs, ht, h1, h2, h3, h4, h5]
  refine ⟨hri, ?_⟩
  simp only [renderView, ht, hri]

/-- Witness for C10 at two concrete states differing only in `marginSize`. -/
theorem render_independent_of_marginSize_witness :
    renderInputs { text := "hi", copied := false, options := initialOptions } = renderInputs { text := "hi", copied := false, options := { initialOptions with marginSize := 10 } } ∧
    renderView { text := "hi", copied := false, options := initialOptions } = renderView { text := "hi", copied := false, options := { initialOptions with marginSize := 10 } } :=
  render_independent_of_marginSize
    { text := "hi", copied := false, options := initialOptions }
    { text := "hi", copied := false, options := { initialOptions with marginSize := 10 } }
    rfl rfl rfl rfl rfl rfl

end QRApp
